import Mathlib

set_option autoImplicit false

/-
Shallow embedding of the session-based authentication example of this
repository (directory Authentication_&_Authorization/session_auth):
the database rows, the signup and login route handlers of
routes/user.routes.js, and the application entry point with its global
session-validation middleware. Generated ids (uuid defaultRandom) are
modelled by fresh counters; the HMAC-SHA256 primitive is a parameter
`hmac : String → String → String` taking the salt (key) and the
password (message); request body fields absent or empty are modelled as
the empty string, matching JavaScript falsiness of "" in the guards the
code actually has.
-/

namespace SessionAuth

/-- A row of the users table of db/schema.js: id, name, email, stored
password hash, and salt. -/
structure User where
  id : Nat
  name : String
  email : String
  password : String
  salt : String
deriving Repr, DecidableEq

/-- A row of the user_sessions table of db/schema.js: id and the owning
user id (foreign reference to users.id). -/
structure Session where
  id : Nat
  userId : Nat
deriving Repr, DecidableEq

/-- The relational store: both tables, plus counters standing for the
fresh uuid generation (defaultRandom) of the primary keys. -/
structure DB where
  users : List User
  sessions : List Session
  nextUserId : Nat
  nextSessionId : Nat
deriving Repr, DecidableEq

/-- A JSON response body, as built by the handlers. -/
inductive Body where
  | errorMsg (e : String)
  | signupOk (userId : Nat) (message : String)
  | loginOk (message : String) (sessionId : Nat)
  | text (t : String)
deriving Repr, DecidableEq

/-- An HTTP response: status code and body. -/
structure Response where
  status : Nat
  body : Body
deriving Repr, DecidableEq

/-- The select ... from usersTable where eq(usersTable.email, email)
query followed by taking the first row, as both handlers do. Drizzle
equality on a varchar column is exact (case-sensitive) string equality. -/
def findUserByEmail : List User → String → Option User
  | [], _ => none
  | u :: rest, email => if u.email = email then some u else findUserByEmail rest email

/-- POST /user/signup of routes/user.routes.js. The fresh random salt of
randomBytes(256) is passed in as `salt`; the handler performs no input
validation. Returns the response and the updated store. -/
def signup (hmac : String → String → String) (db : DB)
    (name email password salt : String) : Response × DB :=
  match findUserByEmail db.users email with
  | some _ =>
      (Response.mk 400 (Body.errorMsg ("User with email " ++ email ++ " already exists")), db)
  | none =>
      let hashedPassword := hmac salt password
      let user : User := User.mk db.nextUserId name email hashedPassword salt
      (Response.mk 201 (Body.signupOk user.id "User created successfully"),
        DB.mk (db.users ++ [user]) db.sessions (db.nextUserId + 1) db.nextSessionId)

/-- POST /user/login of routes/user.routes.js: guard on missing email or
password, exact-email lookup, recomputation of the HMAC with the stored
salt, comparison with the stored hash, and insertion of a fresh session. -/
def login (hmac : String → String → String) (db : DB)
    (email password : String) : Response × DB :=
  if email = "" ∨ password = "" then
    (Response.mk 400 (Body.errorMsg "Email and password are required"), db)
  else
    match findUserByEmail db.users email with
    | none =>
        (Response.mk 400 (Body.errorMsg "User does not exists with the provided email or password"), db)
    | some existingUser =>
        let hashedPassword := hmac existingUser.salt password
        if hashedPassword ≠ existingUser.password then
          (Response.mk 400 (Body.errorMsg "User does not exists with the provided email or password"), db)
        else
          let s : Session := Session.mk db.nextSessionId existingUser.id
          (Response.mk 200 (Body.loginOk "Login successfully" s.id),
            DB.mk db.users (db.sessions ++ [s]) db.nextUserId (db.nextSessionId + 1))

/-- Lookup of a user row by primary key, used by the inner join below. -/
def findUserById : List User → Nat → Option User
  | [], _ => none
  | u :: rest, uid => if u.id = uid then some u else findUserById rest uid

/-- The object the middleware attaches as req.user: the selected columns
userSessions.id (as id), userSessions.userId, usersTable.name and
usersTable.email of the joined row. -/
structure ReqUser where
  id : Nat
  userId : Nat
  name : String
  email : String
deriving Repr, DecidableEq

/-- Rows of userSessions innerJoin usersTable on
eq(userSessions.userId, usersTable.id) where eq(userSessions.id, sid),
first row taken. -/
def joinRows : List Session → List User → Nat → Option ReqUser
  | [], _, _ => none
  | s :: rest, users, sid =>
      if s.id = sid then
        match findUserById users s.userId with
        | some u => some (ReqUser.mk s.id s.userId u.name u.email)
        | none => joinRows rest users sid
      else joinRows rest users sid

/-- The session lookup of the global middleware: select the joined row
for the supplied session id. -/
def sessionJoin (db : DB) (sid : Nat) : Option ReqUser :=
  joinRows db.sessions db.users sid

/-- Outcome of the global middleware: either an early 401 response, or
next() with req.user set. -/
inductive MwResult where
  | reject (r : Response)
  | proceed (u : ReqUser)
deriving Repr, DecidableEq

/-- The global session-validation middleware app.use(sl, ...): missing
session-id header yields 401, an id matching no joined row yields 401,
otherwise req.user is attached and next() is called. -/
def sessionMiddleware (db : DB) (sessionIdHeader : Option Nat) : MwResult :=
  match sessionIdHeader with
  | none => MwResult.reject (Response.mk 401 (Body.errorMsg "No session ID provided"))
  | some sid =>
      match sessionJoin db sid with
      | none => MwResult.reject (Response.mk 401 (Body.errorMsg "Invalid session ID"))
      | some u => MwResult.proceed u

/-- HTTP methods the app distinguishes. -/
inductive Method where
  | GET
  | POST
deriving Repr, DecidableEq

/-- An incoming request: method, path, optional session-id header, and
the JSON body fields the handlers read. -/
structure Request where
  method : Method
  path : String
  sessionId : Option Nat
  bodyName : String
  bodyEmail : String
  bodyPassword : String
deriving Repr, DecidableEq

/-- Whether the /user router (mounted first) handles the request: it
defines exactly POST /signup and POST /login under the /user mount. -/
def userRouterHandles (req : Request) : Prop :=
  req.method = Method.POST ∧ (req.path = "/user/signup" ∨ req.path = "/user/login")

instance (req : Request) : Decidable (userRouterHandles req) := by
  unfold userRouterHandles
  infer_instance

/-- The application entry point: app.use(su, router) is mounted before
the global session middleware, after which app.get(sl) answers Hello,
World; any other path falls to the default 404. -/
def app (hmac : String → String → String) (salt : String) (db : DB)
    (req : Request) : Response × DB :=
  if req.method = Method.POST ∧ req.path = "/user/signup" then
    signup hmac db req.bodyName req.bodyEmail req.bodyPassword salt
  else if req.method = Method.POST ∧ req.path = "/user/login" then
    login hmac db req.bodyEmail req.bodyPassword
  else
    match sessionMiddleware db req.sessionId with
    | MwResult.reject r => (r, db)
    | MwResult.proceed _ =>
        if req.method = Method.GET ∧ req.path = "/" then
          (Response.mk 200 (Body.text "Hello, World!"), db)
        else
          (Response.mk 404 (Body.text "Not Found"), db)

/-- The signup handler with the store calls made fallible: the awaited
select or insert may reject. The handler has no try or catch, so a
rejection escapes it (Except.error) and no response is produced; the
single-row insert never runs on a select failure, so the store is
returned unchanged on every failure. -/
def signupE (hmac : String → String → String) (selectFails insertFails : Bool)
    (db : DB) (name email password salt : String) : Except String Response × DB :=
  if selectFails then (Except.error "select rejected", db)
  else
    match findUserByEmail db.users email with
    | some _ =>
        (Except.ok (Response.mk 400 (Body.errorMsg ("User with email " ++ email ++ " already exists"))), db)
    | none =>
        if insertFails then (Except.error "insert rejected", db)
        else
          let hashedPassword := hmac salt password
          let user : User := User.mk db.nextUserId name email hashedPassword salt
          (Except.ok (Response.mk 201 (Body.signupOk user.id "User created successfully")),
            DB.mk (db.users ++ [user]) db.sessions (db.nextUserId + 1) db.nextSessionId)

/-- The login handler with the store calls made fallible, like signupE:
no try or catch, so a rejected select or session insert escapes the
handler with the store unchanged. -/
def loginE (hmac : String → String → String) (selectFails insertFails : Bool)
    (db : DB) (email password : String) : Except String Response × DB :=
  if email = "" ∨ password = "" then
    (Except.ok (Response.mk 400 (Body.errorMsg "Email and password are required")), db)
  else if selectFails then (Except.error "select rejected", db)
  else
    match findUserByEmail db.users email with
    | none =>
        (Except.ok (Response.mk 400 (Body.errorMsg "User does not exists with the provided email or password")), db)
    | some existingUser =>
        let hashedPassword := hmac existingUser.salt password
        if hashedPassword ≠ existingUser.password then
          (Except.ok (Response.mk 400 (Body.errorMsg "User does not exists with the provided email or password")), db)
        else if insertFails then (Except.error "insert rejected", db)
        else
          let s : Session := Session.mk db.nextSessionId existingUser.id
          (Except.ok (Response.mk 200 (Body.loginOk "Login successfully" s.id)),
            DB.mk db.users (db.sessions ++ [s]) db.nextUserId (db.nextSessionId + 1))

/-- A concrete stand-in for the HMAC-SHA256 primitive, used only to
instantiate witnesses and counterexamples; the theorems quantify over
the primitive. It is deterministic, as the real primitive is. -/
def exHmac (salt password : String) : String :=
  salt ++ "#" ++ password

/-- The empty store. -/
def emptyDB : DB :=
  DB.mk [] [] 1 1

/-- A store holding one user registered with password secret under salt
s0, and no sessions. -/
def exDB1 : DB :=
  DB.mk [User.mk 1 "John" "j@x.com" (exHmac "s0" "secret") "s0"] [] 2 1

/-- A store holding the same user and one session (id 5) owned by the
user (id 1). -/
def exDB3 : DB :=
  DB.mk [User.mk 1 "John" "j@x.com" (exHmac "s0" "secret") "s0"] [Session.mk 5 1] 2 6

/-- Appending a user to a store in which the email is absent makes the
lookup find exactly that user when its email matches. -/
theorem findUserByEmail_append_none {l : List User} {e : String}
    (h : findUserByEmail l e = none) (u : User) :
    findUserByEmail (l ++ [u]) e = if u.email = e then some u else none := by
  induction l with
  | nil => simp [findUserByEmail]
  | cons a t ih =>
      by_cases ha : a.email = e
      · simp [findUserByEmail, ha] at h
      · simp only [findUserByEmail, ha, if_false, List.cons_append] at h ⊢
        exact ih h

/-- The email lookup returns none exactly when no stored user has the
email. -/
theorem findUserByEmail_eq_none_iff {l : List User} {e : String} :
    findUserByEmail l e = none ↔ ∀ u ∈ l, u.email ≠ e := by
  induction l with
  | nil => simp [findUserByEmail]
  | cons a t ih =>
      by_cases ha : a.email = e
      · simp [findUserByEmail, ha]
      · simp [findUserByEmail, ha, ih]

/-- C1 (amended): for every credential created by signup with a nonempty
email and a nonempty password p over a store without that email, a login
with that email and p recomputes the keyed hash over p with the stored
salt, matches the stored hash, succeeds with a 200 response carrying a
fresh session id (one no prior session has); and a login for that email
with any nonempty password whose recomputed hash differs from the
stored hash fails with the generic invalid-credentials error. -/
theorem c1_signup_login_round_trip (hmac : String → String → String) (db : DB)
    (name email p salt : String)
    (hemail : email ≠ "") (hp : p ≠ "")
    (hfresh : findUserByEmail db.users email = none)
    (hids : ∀ s ∈ db.sessions, s.id < db.nextSessionId) :
    (signup hmac db name email p salt).fst.status = 201 ∧
    (login hmac (signup hmac db name email p salt).snd email p).fst
      = Response.mk 200 (Body.loginOk "Login successfully" db.nextSessionId) ∧
    (∀ s ∈ db.sessions, s.id ≠ db.nextSessionId) ∧
    (∀ q : String, q ≠ "" → hmac salt q ≠ hmac salt p →
      (login hmac (signup hmac db name email p salt).snd email q).fst
        = Response.mk 400 (Body.errorMsg "User does not exists with the provided email or password")) := by
  have hnewfind : findUserByEmail
      (db.users ++ [User.mk db.nextUserId name email (hmac salt p) salt]) email
      = some (User.mk db.nextUserId name email (hmac salt p) salt) := by
    rw [findUserByEmail_append_none hfresh]
    simp
  refine ⟨by simp [signup, hfresh], ?_, ?_, ?_⟩
  · simp [signup, hfresh, login, hemail, hp, hnewfind]
  · intro s hs
    exact Nat.ne_of_lt (hids s hs)
  · intro q hq hne
    simp [signup, hfresh, login, hemail, hq, hnewfind, hne]

/-- C1 witness: on the empty store, signing John up and logging in with
the same password yields 200 and session id 1. -/
theorem c1_signup_login_round_trip_witness :
    (login exHmac (signup exHmac emptyDB "John" "j@x.com" "secret" "s0").snd "j@x.com" "secret").fst
      = Response.mk 200 (Body.loginOk "Login successfully" 1) :=
  (c1_signup_login_round_trip exHmac emptyDB "John" "j@x.com" "secret" "s0"
    (by decide) (by decide) rfl (by simp [emptyDB])).2.1

/-- C1 counterexample: signup gladly creates a credential under the
empty password (it validates nothing), yet a login with that email and
the very same password fails with the field-guard error instead of
succeeding, refuting the round-trip claim as stated. -/
theorem c1_counterexample :
    (signup exHmac emptyDB "John" "j@x.com" "" "s0").fst.status = 201 ∧
    (login exHmac (signup exHmac emptyDB "John" "j@x.com" "" "s0").snd "j@x.com" "").fst
      = Response.mk 400 (Body.errorMsg "Email and password are required") :=
  ⟨rfl, rfl⟩

/-- C2 (amended): for every pair of failing login requests with nonempty
email and password fields, one with an email matching no stored
credential and one with a known email but a password whose recomputed
hash differs from the stored hash, the two responses are identical: the
same 400 status and the same generic invalid-credentials payload. -/
theorem c2_failure_indistinguishability (hmac : String → String → String) (db : DB)
    (e1 pw1 e2 pw2 : String) (u : User)
    (h1e : e1 ≠ "") (h1p : pw1 ≠ "") (h2e : e2 ≠ "") (h2p : pw2 ≠ "")
    (habsent : findUserByEmail db.users e1 = none)
    (hfound : findUserByEmail db.users e2 = some u)
    (hwrong : hmac u.salt pw2 ≠ u.password) :
    (login hmac db e1 pw1).fst = (login hmac db e2 pw2).fst ∧
    (login hmac db e1 pw1).fst
      = Response.mk 400 (Body.errorMsg "User does not exists with the provided email or password") := by
  constructor <;> simp [login, h1e, h1p, h2e, h2p, habsent, hfound, hwrong]

/-- C2 witness: unknown email against wrong password for the stored
John credential produce literally equal responses. -/
theorem c2_failure_indistinguishability_witness :
    (login exHmac exDB1 "ghost@x.com" "pw").fst = (login exHmac exDB1 "j@x.com" "bad").fst :=
  (c2_failure_indistinguishability exHmac exDB1 "ghost@x.com" "pw" "j@x.com" "bad"
    (User.mk 1 "John" "j@x.com" (exHmac "s0" "secret") "s0")
    (by decide) (by decide) (by decide) (by decide) (by decide) (by decide) (by decide)).1

/-- C2 counterexample: a failing login with a known email but the wrong
(empty) password answers with the field-guard payload, distinguishable
from the unknown-email payload, refuting the claim as stated. -/
theorem c2_counterexample :
    (login exHmac exDB1 "ghost@x.com" "pw").fst.status = 400 ∧
    (login exHmac exDB1 "j@x.com" "").fst.status = 400 ∧
    (login exHmac exDB1 "ghost@x.com" "pw").fst.body ≠ (login exHmac exDB1 "j@x.com" "").fst.body := by
  refine ⟨rfl, rfl, by decide⟩

/-- C3 (amended): signup performs no input validation: a signup request
whose name, email and password are all empty succeeds with 201 and
persists a credential record (whenever the empty email is not already
taken); only the login handler validates, answering 400 with the
field-guard error when its email or password is missing or empty. -/
theorem c3_no_signup_validation (hmac : String → String → String) (db : DB) (salt : String)
    (h : findUserByEmail db.users "" = none) :
    (signup hmac db "" "" "" salt).fst.status = 201 ∧
    (signup hmac db "" "" "" salt).snd.users.length = db.users.length + 1 ∧
    (∀ email password : String, email = "" ∨ password = "" →
      (login hmac db email password).fst
        = Response.mk 400 (Body.errorMsg "Email and password are required")) := by
  refine ⟨by simp [signup, h], by simp [signup, h], ?_⟩
  intro email password hcase
  unfold login
  rw [if_pos hcase]

/-- C3 witness: the all-empty signup on the empty store returns 201. -/
theorem c3_no_signup_validation_witness :
    (signup exHmac emptyDB "" "" "" "s0").fst.status = 201 :=
  (c3_no_signup_validation exHmac emptyDB "s0" rfl).1

/-- C3 counterexample: the signup request with every field empty does
not fail with a validation error: it answers 201 and a credential with
empty name, email and password is persisted, refuting the claim. -/
theorem c3_counterexample :
    (signup exHmac emptyDB "" "" "" "s0").fst.status = 201 ∧
    (signup exHmac emptyDB "" "" "" "s0").snd.users
      = [User.mk 1 "" "" (exHmac "s0" "") "s0"] :=
  ⟨rfl, rfl⟩

/-- C4 (amended): the duplicate check compares emails by exact,
case-sensitive equality: for two signup requests with exactly equal
emails over a store without that email, the second always fails with the
duplicate-identity 400 error, leaves the store unchanged, and exactly
one credential with that email exists afterward. -/
theorem c4_exact_duplicate_rejected (hmac : String → String → String) (db : DB)
    (n1 e p1 s1 n2 p2 s2 : String)
    (hfresh : findUserByEmail db.users e = none) :
    (signup hmac (signup hmac db n1 e p1 s1).snd n2 e p2 s2).fst
      = Response.mk 400 (Body.errorMsg ("User with email " ++ e ++ " already exists")) ∧
    (signup hmac (signup hmac db n1 e p1 s1).snd n2 e p2 s2).snd
      = (signup hmac db n1 e p1 s1).snd ∧
    ((signup hmac (signup hmac db n1 e p1 s1).snd n2 e p2 s2).snd.users.filter
        (fun u => u.email == e)).length = 1 := by
  have hall : ∀ u ∈ db.users, u.email ≠ e := findUserByEmail_eq_none_iff.mp hfresh
  have hfind2 : findUserByEmail
      (db.users ++ [User.mk db.nextUserId n1 e (hmac s1 p1) s1]) e
      = some (User.mk db.nextUserId n1 e (hmac s1 p1) s1) := by
    rw [findUserByEmail_append_none hfresh]
    simp
  have hnilfilter : db.users.filter (fun u => u.email == e) = [] := by
    rw [List.filter_eq_nil_iff]
    intro u hu
    simp [hall u hu]
  refine ⟨?_, ?_, ?_⟩
  · simp [signup, hfresh, hfind2]
  · simp [signup, hfresh, hfind2]
  · simp [signup, hfresh, hfind2, List.filter_append, hnilfilter]

/-- C4 witness: two signups with the identical email j at x dot com on
the empty store: the second is rejected as a duplicate. -/
theorem c4_exact_duplicate_rejected_witness :
    (signup exHmac (signup exHmac emptyDB "John" "j@x.com" "p1" "s1").snd "Jane" "j@x.com" "p2" "s2").fst
      = Response.mk 400 (Body.errorMsg ("User with email " ++ "j@x.com" ++ " already exists")) :=
  (c4_exact_duplicate_rejected exHmac emptyDB "John" "j@x.com" "p1" "s1" "Jane" "p2" "s2" rfl).1

/-- C4 counterexample: two signups whose emails agree up to letter case
but differ as strings both succeed and two credential records exist
afterward, refuting the claimed case-normalized duplicate rejection. -/
theorem c4_counterexample :
    (signup exHmac (signup exHmac emptyDB "n" "John@x.com" "p" "s1").snd "n" "john@x.com" "p" "s2").fst.status = 201 ∧
    (signup exHmac (signup exHmac emptyDB "n" "John@x.com" "p" "s1").snd "n" "john@x.com" "p" "s2").snd.users.length = 2 :=
  ⟨rfl, rfl⟩

/-- The user lookup by primary key returns a stored user with that id. -/
theorem findUserById_some {l : List User} {uid : Nat} {c : User}
    (h : findUserById l uid = some c) : c ∈ l ∧ c.id = uid := by
  induction l with
  | nil => simp [findUserById] at h
  | cons a t ih =>
      by_cases ha : a.id = uid
      · simp only [findUserById, ha, if_true, Option.some.injEq] at h
        subst h
        exact ⟨List.mem_cons_self a t, ha⟩
      · simp only [findUserById, ha, if_false] at h
        obtain ⟨hmem, hid⟩ := ih h
        exact ⟨List.mem_cons_of_mem a hmem, hid⟩

/-- Every row the join produces comes from a stored session with the
looked-up id and a stored user found under its userId. -/
theorem joinRows_some {sess : List Session} {users : List User} {sid : Nat} {u : ReqUser}
    (h : joinRows sess users sid = some u) :
    ∃ s ∈ sess, s.id = sid ∧ ∃ cred, findUserById users s.userId = some cred ∧
      u = ReqUser.mk s.id s.userId cred.name cred.email := by
  induction sess with
  | nil => simp [joinRows] at h
  | cons s rest ih =>
      by_cases hs : s.id = sid
      · simp only [joinRows] at h
        rw [if_pos hs] at h
        cases hfind : findUserById users s.userId with
        | some cred =>
            rw [hfind] at h
            simp only [Option.some.injEq] at h
            exact ⟨s, List.mem_cons_self s rest, hs, cred, hfind, h.symm⟩
        | none =>
            rw [hfind] at h
            obtain ⟨s', hmem, hsid, cred, hc, hu⟩ := ih h
            exact ⟨s', List.mem_cons_of_mem s hmem, hsid, cred, hc, hu⟩
      · simp only [joinRows, hs, if_false] at h
        obtain ⟨s', hmem, hsid, cred, hc, hu⟩ := ih h
        exact ⟨s', List.mem_cons_of_mem s hmem, hsid, cred, hc, hu⟩

/-- When no stored session carries the looked-up id the join is empty. -/
theorem joinRows_none {sess : List Session} {users : List User} {sid : Nat}
    (h : ∀ s ∈ sess, s.id ≠ sid) : joinRows sess users sid = none := by
  induction sess with
  | nil => rfl
  | cons s rest ih =>
      have hs : s.id ≠ sid := h s (List.mem_cons_self s rest)
      simp only [joinRows, hs, if_false]
      exact ih (fun s' hs' => h s' (List.mem_cons_of_mem s hs'))

/-- The lookup by id ignores the password and salt columns entirely. -/
theorem findUserById_map_redact (f g : User → String) (l : List User) (uid : Nat) :
    findUserById (l.map (fun c => User.mk c.id c.name c.email (f c) (g c))) uid
      = (findUserById l uid).map (fun c => User.mk c.id c.name c.email (f c) (g c)) := by
  induction l with
  | nil => rfl
  | cons a t ih => by_cases ha : a.id = uid <;> simp [findUserById, ha, ih]

/-- The join ignores the password and salt columns entirely. -/
theorem joinRows_map_redact (f g : User → String) (sess : List Session)
    (l : List User) (sid : Nat) :
    joinRows sess (l.map (fun c => User.mk c.id c.name c.email (f c) (g c))) sid
      = joinRows sess l sid := by
  induction sess with
  | nil => rfl
  | cons s rest ih =>
      by_cases hs : s.id = sid
      · simp only [joinRows, hs, if_true, findUserById_map_redact]
        cases findUserById l s.userId <;> simp [ih]
      · simp only [joinRows, hs, if_false]
        exact ih

/-- Every signup response has status 400 or 201. -/
theorem signup_status (hmac : String → String → String) (db : DB)
    (n e p s : String) :
    (signup hmac db n e p s).fst.status = 400 ∨ (signup hmac db n e p s).fst.status = 201 := by
  rcases hfind : findUserByEmail db.users e with _ | u <;> simp [signup, hfind]

/-- Every login response has status 400 or 200. -/
theorem login_status (hmac : String → String → String) (db : DB) (e p : String) :
    (login hmac db e p).fst.status = 400 ∨ (login hmac db e p).fst.status = 200 := by
  unfold login
  by_cases hc : e = "" ∨ p = ""
  · simp [hc]
  · rw [if_neg hc]
    rcases hfind : findUserByEmail db.users e with _ | u
    · simp [hfind]
    · by_cases hh : hmac u.salt p ≠ u.password <;> simp [hfind, hh]

/-- C5: session validation failures: a missing session-id token makes
the middleware reject with the 401 unauthenticated error, and a token
matching no joined session row makes it reject with the 401
invalid-session error; in either case the application answers with that
401 and the downstream handler is not reached (the store is untouched
and the response is the middleware's). -/
theorem c5_session_validation_errors (hmac : String → String → String)
    (salt : String) (db : DB) (req : Request) (sid : Nat)
    (hnone : sessionJoin db sid = none)
    (hnr : ¬ userRouterHandles req) :
    sessionMiddleware db none
      = MwResult.reject (Response.mk 401 (Body.errorMsg "No session ID provided")) ∧
    sessionMiddleware db (some sid)
      = MwResult.reject (Response.mk 401 (Body.errorMsg "Invalid session ID")) ∧
    (req.sessionId = none →
      app hmac salt db req = (Response.mk 401 (Body.errorMsg "No session ID provided"), db)) ∧
    (req.sessionId = some sid →
      app hmac salt db req = (Response.mk 401 (Body.errorMsg "Invalid session ID"), db)) := by
  have h1 : ¬ (req.method = Method.POST ∧ req.path = "/user/signup") :=
    fun hc => hnr ⟨hc.1, Or.inl hc.2⟩
  have h2 : ¬ (req.method = Method.POST ∧ req.path = "/user/login") :=
    fun hc => hnr ⟨hc.1, Or.inr hc.2⟩
  refine ⟨rfl, by simp [sessionMiddleware, hnone], ?_, ?_⟩
  · intro hsid
    simp [app, h1, h2, hsid, sessionMiddleware]
  · intro hsid
    simp [app, h1, h2, hsid, sessionMiddleware, hnone]

/-- C5 witness: a GET of the root with no session-id header on a store
with one session is answered 401 unauthenticated. -/
theorem c5_session_validation_errors_witness :
    app exHmac "s0" exDB3 (Request.mk Method.GET "/" none "" "" "")
      = (Response.mk 401 (Body.errorMsg "No session ID provided"), exDB3) :=
  (c5_session_validation_errors exHmac "s0" exDB3
    (Request.mk Method.GET "/" none "" "" "") 99 (by decide) (by decide)).2.2.1 rfl

/-- C6: session-credential integrity: every row the session lookup
returns as valid joins a stored session with an existing credential (the
owning user), and a session id no stored session has never resolves. -/
theorem c6_session_credential_integrity (db : DB) (sid : Nat) :
    (∀ u : ReqUser, sessionJoin db sid = some u →
      ∃ s ∈ db.sessions, s.id = sid ∧ ∃ cred ∈ db.users,
        cred.id = s.userId ∧ u.userId = cred.id ∧ u.name = cred.name ∧ u.email = cred.email) ∧
    ((∀ s ∈ db.sessions, s.id ≠ sid) → sessionJoin db sid = none) := by
  constructor
  · intro u hu
    obtain ⟨s, hmem, hsid, cred, hfind, hu'⟩ := joinRows_some hu
    obtain ⟨hcmem, hcid⟩ := findUserById_some hfind
    subst hu'
    exact ⟨s, hmem, hsid, cred, hcmem, hcid, hcid.symm, rfl, rfl⟩
  · intro h
    exact joinRows_none h

/-- C6 witness: on the store with a single session of id 5, the forged
id 99 never resolves. -/
theorem c6_session_credential_integrity_witness : sessionJoin exDB3 99 = none :=
  (c6_session_credential_integrity exDB3 99).2 (by decide)

/-- C7 (amended): the object attached as req.user on successful
validation is built from the joined row: its id field is the session id,
its userId field is the owning credential id, and its name and email are
the credential ones; it is unchanged under arbitrary rewriting of every
stored password hash and salt, so it carries neither. -/
theorem c7_attached_identity (db : DB) (sid : Nat) (u : ReqUser)
    (h : sessionJoin db sid = some u) :
    (∃ s ∈ db.sessions, s.id = sid ∧ ∃ cred ∈ db.users, cred.id = s.userId ∧
      u = ReqUser.mk s.id s.userId cred.name cred.email) ∧
    (∀ f g : User → String,
      sessionJoin (DB.mk (db.users.map (fun c => User.mk c.id c.name c.email (f c) (g c)))
        db.sessions db.nextUserId db.nextSessionId) sid = some u) := by
  constructor
  · obtain ⟨s, hmem, hsid, cred, hfind, hu'⟩ := joinRows_some h
    obtain ⟨hcmem, hcid⟩ := findUserById_some hfind
    exact ⟨s, hmem, hsid, cred, hcmem, hcid, hu'⟩
  · intro f g
    show joinRows db.sessions (db.users.map (fun c => User.mk c.id c.name c.email (f c) (g c))) sid
      = some u
    rw [joinRows_map_redact]
    exact h

/-- C7 witness: redacting the stored hash and salt of every user leaves
the attached identity for session 5 unchanged. -/
theorem c7_attached_identity_witness :
    sessionJoin (DB.mk (exDB3.users.map (fun c => User.mk c.id c.name c.email "X" "Y"))
      exDB3.sessions exDB3.nextUserId exDB3.nextSessionId) 5
      = some (ReqUser.mk 5 1 "John" "j@x.com") :=
  (c7_attached_identity exDB3 5 (ReqUser.mk 5 1 "John" "j@x.com") (by decide)).2
    (fun _ => "X") (fun _ => "Y")

/-- C7 counterexample: in a store whose only credential has id 1 while
its session has id 5, the attached identity's id field is 5 — the
session id, an id no credential has — so the attached object is not the
credential's own (id, name, email) triple, refuting the claim as
stated. -/
theorem c7_counterexample :
    sessionJoin exDB3 5 = some (ReqUser.mk 5 1 "John" "j@x.com") ∧
    (exDB3.users.all (fun cred => cred.id != 5)) = true :=
  ⟨rfl, rfl⟩

/-- C8 (amended): the handlers install no error handling around the
store calls: when the awaited select or insert rejects, the rejection
escapes the handler, so no response at all is produced — in particular
no sanitized 500-class one — and the store is returned unchanged, so no
partial credential or session record is left behind. -/
theorem c8_store_failure_escapes (hmac : String → String → String) (db : DB)
    (n1 e1 p1 s1 e2 p2 : String) (u : User) (b1 b2 : Bool)
    (hfresh : findUserByEmail db.users e1 = none)
    (h2e : e2 ≠ "") (h2p : p2 ≠ "")
    (hfound : findUserByEmail db.users e2 = some u)
    (hmatch : hmac u.salt p2 = u.password) :
    signupE hmac true b1 db n1 e1 p1 s1 = (Except.error "select rejected", db) ∧
    signupE hmac false true db n1 e1 p1 s1 = (Except.error "insert rejected", db) ∧
    loginE hmac true b2 db e2 p2 = (Except.error "select rejected", db) ∧
    loginE hmac false true db e2 p2 = (Except.error "insert rejected", db) := by
  refine ⟨by simp [signupE], by simp [signupE, hfresh], ?_, ?_⟩
  · simp [loginE, h2e, h2p]
  · simp [loginE, h2e, h2p, hfound, hmatch]

/-- C8 witness: the login whose session insert rejects escapes with the
error and the one-user store unchanged. -/
theorem c8_store_failure_escapes_witness :
    loginE exHmac false true exDB1 "j@x.com" "secret" = (Except.error "insert rejected", exDB1) :=
  (c8_store_failure_escapes exHmac exDB1 "n" "a@x.com" "p" "s" "j@x.com" "secret"
    (User.mk 1 "John" "j@x.com" (exHmac "s0" "secret") "s0") false false
    (by decide) (by decide) (by decide) (by decide) rfl).2.2.2

/-- C8 counterexample: with a failing insert the signup handler yields
no response whatsoever — the rejection escapes uncaught — rather than
any 500-class internal error response, refuting the claim as stated. -/
theorem c8_counterexample :
    (signupE exHmac false true emptyDB "John" "j@x.com" "secret" "s0").fst
      = Except.error "insert rejected" ∧
    (signupE exHmac false true emptyDB "John" "j@x.com" "secret" "s0").snd = emptyDB :=
  ⟨rfl, rfl⟩

/-- C9: the /user router is mounted before the global session
middleware, so POST /user/signup and POST /user/login are answered by
the router alone: the response is independent of the session-id header,
it is exactly the signup or login handler response, and it is never a
401 session error. -/
theorem c9_user_routes_bypass_session (hmac : String → String → String)
    (salt : String) (db : DB) (req : Request)
    (h : userRouterHandles req) :
    (∀ h1 h2 : Option Nat,
      app hmac salt db (Request.mk req.method req.path h1 req.bodyName req.bodyEmail req.bodyPassword)
        = app hmac salt db (Request.mk req.method req.path h2 req.bodyName req.bodyEmail req.bodyPassword)) ∧
    (req.path = "/user/signup" →
      app hmac salt db req = signup hmac db req.bodyName req.bodyEmail req.bodyPassword salt) ∧
    (req.path = "/user/login" →
      app hmac salt db req = login hmac db req.bodyEmail req.bodyPassword) ∧
    (app hmac salt db req).fst.status ≠ 401 := by
  obtain ⟨hm, hpath⟩ := h
  refine ⟨?_, ?_, ?_, ?_⟩
  · intro h1 h2
    rcases hpath with hp | hp <;> simp [app, hm, hp]
  · intro hp
    simp [app, hm, hp]
  · intro hp
    simp [app, hm, hp]
  · rcases hpath with hp | hp
    · rcases signup_status hmac db req.bodyName req.bodyEmail req.bodyPassword salt with h' | h' <;>
        simp [app, hm, hp, h']
    · rcases login_status hmac db req.bodyEmail req.bodyPassword with h' | h' <;>
        simp [app, hm, hp, h']

/-- C9 witness: a login request carrying a session-id header is answered
by the login handler, not with a 401. -/
theorem c9_user_routes_bypass_session_witness :
    (app exHmac "s0" emptyDB (Request.mk Method.POST "/user/login" (some 7) "" "j@x.com" "pw")).fst.status ≠ 401 :=
  (c9_user_routes_bypass_session exHmac "s0" emptyDB
    (Request.mk Method.POST "/user/login" (some 7) "" "j@x.com" "pw") (by decide)).2.2.2

/-- C10: every request the /user router does not handle is gated by the
session middleware: with no session-id header the answer is the 401
no-session error, with a header resolving to no joined row the answer is
the 401 invalid-session error, and the root greeting handler answers
only when the header resolves to a session joined with its credential. -/
theorem c10_non_user_routes_gated (hmac : String → String → String)
    (salt : String) (db : DB) (req : Request)
    (h : ¬ userRouterHandles req) :
    (req.sessionId = none →
      app hmac salt db req = (Response.mk 401 (Body.errorMsg "No session ID provided"), db)) ∧
    (∀ sid, req.sessionId = some sid → sessionJoin db sid = none →
      app hmac salt db req = (Response.mk 401 (Body.errorMsg "Invalid session ID"), db)) ∧
    ((app hmac salt db req).fst.body = Body.text "Hello, World!" →
      ∃ sid u, req.sessionId = some sid ∧ sessionJoin db sid = some u) := by
  have h1 : ¬ (req.method = Method.POST ∧ req.path = "/user/signup") :=
    fun hc => h ⟨hc.1, Or.inl hc.2⟩
  have h2 : ¬ (req.method = Method.POST ∧ req.path = "/user/login") :=
    fun hc => h ⟨hc.1, Or.inr hc.2⟩
  refine ⟨?_, ?_, ?_⟩
  · intro hsid
    simp [app, h1, h2, hsid, sessionMiddleware]
  · intro sid hsid hnone
    simp [app, h1, h2, hsid, sessionMiddleware, hnone]
  · intro hbody
    cases hsid : req.sessionId with
    | none => simp [app, h1, h2, hsid, sessionMiddleware] at hbody
    | some sid =>
        cases hjoin : sessionJoin db sid with
        | none => simp [app, h1, h2, hsid, sessionMiddleware, hjoin] at hbody
        | some u => exact ⟨sid, u, rfl, hjoin⟩

/-- C10 witness: the root greeting with a header naming no stored
session is answered with the 401 invalid-session error. -/
theorem c10_non_user_routes_gated_witness :
    app exHmac "s0" exDB3 (Request.mk Method.GET "/" (some 99) "" "" "")
      = (Response.mk 401 (Body.errorMsg "Invalid session ID"), exDB3) :=
  (c10_non_user_routes_gated exHmac "s0" exDB3
    (Request.mk Method.GET "/" (some 99) "" "" "") (by decide)).2.1 99 rfl (by decide)

end SessionAuth
